import Mathlib

/-!
Shallow embedding of the client-side logic of the yummy-st-eats storefront:
the refund dialog (`src/components/checkout/RefundDialog.tsx`), the mobile
country selector (`src/components/header/mobile-menu/CountrySelector.tsx`)
and the authentication context (`src/contexts/AuthContext.tsx`).

JavaScript strings are modelled as Lean `String`; the handful of string
operations the code uses (`toLowerCase`, `trim`, `includes`) are defined
below character-by-character (ASCII case folding, ASCII whitespace), so that
all definitions evaluate by kernel reduction.  JavaScript numbers are
modelled as rationals; the one place where `NaN` and the infinities matter
(`parseFloat` feeding `handleAmountChange`) uses an explicit `JSNum` type.
External collaborators (the supabase backend, the refund service) are
modelled as explicit outcome parameters, and each operation returns a trace
recording the backend calls it made and the toast notifications it fired.
-/

namespace Yummy

/-- A toast notification as fired by the `useToast` hook: title, description
and variant (`"destructive"` for errors, `"default"` otherwise).  Translation
is modelled as the identity on translation keys. -/
structure Toast where
  title : String
  description : String
  variant : String
  deriving Repr, DecidableEq

/-- ASCII case folding for one character, the fragment of JavaScript
`toLowerCase` exercised by the code (country names, codes and queries). -/
def lowerChar (c : Char) : Char :=
  if 65 ≤ c.toNat ∧ c.toNat ≤ 90 then Char.ofNat (c.toNat + 32) else c

/-- JavaScript `String.prototype.toLowerCase`, restricted to ASCII folding. -/
def jsToLower (s : String) : String :=
  ⟨s.data.map lowerChar⟩

/-- ASCII whitespace, the fragment of the JavaScript `trim` character class
relevant here. -/
def isJsSpace (c : Char) : Bool :=
  c ∈ ([' ', '\t', '\n', '\r', '\x0b', '\x0c'] : List Char)

/-- JavaScript `String.prototype.trim`: drop leading and trailing whitespace. -/
def jsTrim (s : String) : String :=
  ⟨((s.data.dropWhile isJsSpace).reverse.dropWhile isJsSpace).reverse⟩

/-- Substring test on character lists: `needle` occurs contiguously in `hay`. -/
def containsSub (hay needle : List Char) : Bool :=
  (List.range (hay.length + 1)).any (fun i => List.isPrefixOf needle (hay.drop i))

/-- JavaScript `String.prototype.includes`. -/
def jsIncludes (s sub : String) : Bool :=
  containsSub s.data sub.data

/-! ## Refund dialog (`RefundDialog.tsx`) -/

/-- The `orderId` field of the dialog props has TypeScript type
`string | number`. -/
inductive OrderId where
  | str (s : String)
  | num (n : ℚ)
  deriving Repr, DecidableEq

/-- The read-only `orderDetails` prop of `RefundDialog`. -/
structure OrderDetails where
  orderId : OrderId
  amount : ℚ
  cardNumber : Option String
  deriving Repr, DecidableEq

/-- The local component state of `RefundDialog`: the controlled refund
amount, the reason text and the processing flag. -/
structure RefundState where
  refundAmount : ℚ
  reason : String
  isProcessing : Bool
  deriving Repr, DecidableEq

/-- Initial state: `useState(orderDetails.amount)`, `useState("")`,
`useState(false)`. -/
def initialRefundState (orderDetails : OrderDetails) : RefundState :=
  { refundAmount := orderDetails.amount, reason := "", isProcessing := false }

/-- Result of JavaScript `parseFloat` on the raw input string: `NaN`,
an infinity, or a finite value (modelled as a rational). -/
inductive JSNum where
  | nan
  | posInf
  | negInf
  | fin (v : ℚ)
  deriving Repr, DecidableEq

/-- JavaScript `isNaN` on a `parseFloat` result. -/
def jsIsNaN : JSNum → Bool
  | .nan => true
  | _ => false

/-- The comparison `value > 0` on a `parseFloat` result (false for `NaN`). -/
def jsGtZero : JSNum → Bool
  | .fin v => decide (0 < v)
  | .posInf => true
  | _ => false

/-- The comparison `value <= q` against a finite bound `q` (false for `NaN`
and for positive infinity). -/
def jsLeBound (x : JSNum) (q : ℚ) : Bool :=
  match x with
  | .fin v => decide (v ≤ q)
  | .negInf => true
  | _ => false

/-- The finite value carried by a `JSNum`; only ever read under a guard that
rules the other constructors out. -/
def jsVal : JSNum → ℚ
  | .fin v => v
  | _ => 0

/-- `handleAmountChange`: parse the input; if the value is a number with
`value > 0 && value <= orderDetails.amount`, store it, otherwise leave the
state untouched.  `value` is the already-parsed `parseFloat(e.target.value)`. -/
def handleAmountChange (orderDetails : OrderDetails) (s : RefundState)
    (value : JSNum) : RefundState :=
  if !(jsIsNaN value) && jsGtZero value && jsLeBound value orderDetails.amount then
    { s with refundAmount := jsVal value }
  else s

/-- `handleReasonChange`: store the textarea value. -/
def handleReasonChange (s : RefundState) (value : String) : RefundState :=
  { s with reason := value }

/-- The argument record of `VirtualCardService.processRefund`. -/
structure RefundRequest where
  orderId : OrderId
  amount : ℚ
  reason : String
  deriving Repr, DecidableEq

/-- Outcome of the external refund service: return normally, or throw a
value that either is an `Error` carrying message `m` (`failure (some m)`)
or is not an `Error` / has no usable message (`failure none`). -/
inductive RefundOutcome where
  | success
  | failure (errMsg : Option String)
  deriving Repr, DecidableEq

/-- The toast description in the catch branch:
`error instanceof Error ? error.message : t("refund.errorMessage")`. -/
def refundFailureDescription (errMsg : Option String) : String :=
  match errMsg with
  | some m => m
  | none => "refund.errorMessage"

/-- Everything observable about one run of `handleSubmit`: the final local
state, the toasts fired, the refund-service calls made, whether the
`onSuccess` callback and the `onClose` callback were invoked, and whether
the processing flag was raised around the service call. -/
structure SubmitResult where
  state : RefundState
  toasts : List Toast
  calls : List RefundRequest
  onSuccessCalled : Bool
  onCloseCalled : Bool
  processingDuringCall : Bool
  deriving Repr, DecidableEq

/-- `handleSubmit`, lines 54-101 of `RefundDialog.tsx`.  `onSuccessProvided`
says whether the optional `onSuccess` prop was passed; `service` is the
behaviour of `VirtualCardService.processRefund` on the request it is given. -/
def handleSubmit (orderDetails : OrderDetails) (s : RefundState)
    (onSuccessProvided : Bool) (service : RefundRequest → RefundOutcome) :
    SubmitResult :=
  if s.refundAmount ≤ 0 ∨ s.refundAmount > orderDetails.amount then
    { state := s,
      toasts := [⟨"refund.invalidAmount", "refund.amountError", "destructive"⟩],
      calls := [], onSuccessCalled := false, onCloseCalled := false,
      processingDuringCall := false }
  else if jsTrim s.reason = "" then
    { state := s,
      toasts := [⟨"refund.missingReason", "refund.reasonRequired", "destructive"⟩],
      calls := [], onSuccessCalled := false, onCloseCalled := false,
      processingDuringCall := false }
  else
    let req : RefundRequest :=
      { orderId := orderDetails.orderId, amount := s.refundAmount, reason := s.reason }
    match service req with
    | .success =>
      { state := { s with isProcessing := false },
        toasts := [⟨"refund.success", "refund.processed", "default"⟩],
        calls := [req], onSuccessCalled := onSuccessProvided, onCloseCalled := true,
        processingDuringCall := true }
    | .failure errMsg =>
      { state := { s with isProcessing := false },
        toasts := [⟨"refund.failed", refundFailureDescription errMsg, "destructive"⟩],
        calls := [req], onSuccessCalled := false, onCloseCalled := false,
        processingDuringCall := true }

/-! ## Country selector (`CountrySelector.tsx`) -/

/-- One entry of the static country list: code, the two localized names and
the flag glyph. -/
structure Country where
  code : String
  name : String
  nameAr : String
  flagEmoji : String
  deriving Repr, DecidableEq

/-- `filteredCountries`, lines 49-58 of `CountrySelector.tsx`: if the query
is blank after trimming, the whole list; otherwise the entries one of whose
lowercased `name`, `nameAr` or `code` fields contains the lowercased
(untrimmed) query. -/
def filteredCountries (countries : List Country) (countrySearchQuery : String) :
    List Country :=
  if jsTrim countrySearchQuery = "" then countries
  else countries.filter (fun country =>
    let query := jsToLower countrySearchQuery
    jsIncludes (jsToLower country.name) query ||
    jsIncludes (jsToLower country.nameAr) query ||
    jsIncludes (jsToLower country.code) query)

/-- Modelled from the spec: the result set the spec claims for a query `q` —
exactly the entries whose name, localized name, or code contains `q` as a
case-insensitive substring.  Kept separate from `filteredCountries`, which is
translated from the source, so the two can be compared. -/
def specCountryMatches (countries : List Country) (q : String) : List Country :=
  countries.filter (fun c =>
    jsIncludes (jsToLower c.name) (jsToLower q) ||
    jsIncludes (jsToLower c.nameAr) (jsToLower q) ||
    jsIncludes (jsToLower c.code) (jsToLower q))

/-- What the list region of the component renders: the filtered grid of
entries, or the explicit not-found placeholder. -/
inductive CountryListView where
  | entries (cs : List Country)
  | noneFound
  deriving Repr, DecidableEq

/-- Lines 137-161 of `CountrySelector.tsx`:
`filteredCountries.length > 0 ? <grid> : <not-found>`. -/
def renderCountryList (countries : List Country) (q : String) : CountryListView :=
  if 0 < (filteredCountries countries q).length then
    .entries (filteredCountries countries q)
  else .noneFound

/-- Modelled from the spec: two representative entries of the repository's
static country list (the `country-data` module is not among the provided
sources; the spec describes its entries as code, localized names and flag
glyph). -/
def modelCountries : List Country :=
  [{ code := "SA", name := "Saudi Arabia", nameAr := "السعودية", flagEmoji := "🇸🇦" },
   { code := "EG", name := "Egypt", nameAr := "مصر", flagEmoji := "🇪🇬" }]

/-! ## Authentication context (`AuthContext.tsx`) -/

/-- The fragment of the supabase `User` record the code reads. -/
structure UserInfo where
  id : String
  deriving Repr, DecidableEq

/-- The fragment of the supabase `Session` record the code reads; a session
always carries its user. -/
structure Session where
  user : UserInfo
  deriving Repr, DecidableEq

/-- A row of the `profiles` table, with the columns the code touches. -/
structure Profile where
  id : String
  email : String
  full_name : String
  user_type : String
  created_at : String
  deriving Repr, DecidableEq

/-- The provider's local state:
`session`, `user`, `loading`, `isAdmin`, `profile`, `isLoading`. -/
structure AuthState where
  session : Option Session
  user : Option UserInfo
  loading : Bool
  isAdmin : Bool
  profile : Option Profile
  isLoading : Bool
  deriving Repr, DecidableEq

/-- What one invocation of the `onAuthStateChange` listener does
synchronously: the updated local state, plus the user ids (if any) for which
the asynchronous `fetchProfile` and `checkUserRole` requests were started. -/
structure ListenerEffects where
  state : AuthState
  fetchProfileFor : Option String
  checkUserRoleFor : Option String
  deriving Repr, DecidableEq

/-- The `onAuthStateChange` listener, lines 44-62 of `AuthContext.tsx`:
set session and user from the event payload; if a user is present start the
profile fetch and the role check; on the `"SIGNED_OUT"` event clear the
admin flag and the profile; finally clear the loading flags. -/
def onAuthStateChange (st : AuthState) (event : String)
    (session : Option Session) : ListenerEffects :=
  let st1 := { st with session := session,
                       user := session.map Session.user }
  let st2 := if event = "SIGNED_OUT"
    then { st1 with isAdmin := false, profile := none }
    else st1
  { state := { st2 with loading := false, isLoading := false },
    fetchProfileFor := session.map (fun sess => sess.user.id),
    checkUserRoleFor := session.map (fun sess => sess.user.id) }

/-- Outcome of the `supabase.auth.signUp` call: an error with a message, or
success carrying `data.user` (which supabase may return as null). -/
inductive AuthSignUpResult where
  | ok (user : Option String)
  | err (message : String)
  deriving Repr, DecidableEq

/-- The backend behaviour visible to one `signUp` run: the `profiles` rows
at call time, whether the existence pre-check query itself errors, the
outcome of `supabase.auth.signUp`, the outcome of the profile-row insert,
whether the compensating `admin.deleteUser` throws, and the timestamp
`new Date().toISOString()`. -/
structure SignUpEnv where
  db : List Profile
  checkErr : Option String
  authResult : AuthSignUpResult
  insertErr : Option String
  deleteFails : Bool
  now : String
  deriving Repr, DecidableEq

/-- The `metadata` argument of `signUp`; the code only reads
`metadata?.full_name`. -/
structure Metadata where
  full_name : Option String
  deriving Repr, DecidableEq

/-- `metadata?.full_name || ''` (an absent or empty name is falsy and
yields the empty string). -/
def metadataFullName (metadata : Option Metadata) : String :=
  (metadata.bind Metadata.full_name).getD ""

/-- `error.message || "auth.unknown_error"`: a JavaScript empty message is
falsy and falls back to the generic key. -/
def errMsgOrUnknown (m : String) : String :=
  if m = "" then "auth.unknown_error" else m

/-- The `{ error, data }` record `signUp` returns; `error` is the message of
the error value, `data` is the auth payload (itself carrying the optional
user id) when present. -/
structure SignUpReturn where
  error : Option String
  data : Option (Option String)
  deriving Repr, DecidableEq

/-- Everything observable about one run of `signUp`: the returned record,
whether `supabase.auth.signUp` was called, the row passed to the profile
insert (if reached), the user id passed to `admin.deleteUser` (if reached),
and the toasts fired. -/
structure SignUpTrace where
  result : SignUpReturn
  authSignUpCalled : Bool
  insertedRow : Option Profile
  deleteUserCalled : Option String
  toasts : List Toast
  deriving Repr, DecidableEq

/-- `signUp`, lines 123-198 of `AuthContext.tsx`.  The pre-check
`select('id').eq('email', email).maybeSingle()` yields the first matching
row when the query succeeds and null when it errors (the error is only
logged).  A found row short-circuits with `auth.email_already_exists`.
Otherwise the auth identity is created; on success with a non-null
`data.user` a profile row is inserted, and if the insert fails the
just-created identity is deleted best-effort and
`Error('auth.profile_creation_failed')` is thrown into the outer catch,
which fires the failure toast and returns the error. -/
def signUp (env : SignUpEnv) (email _password : String)
    (metadata : Option Metadata) : SignUpTrace :=
  let existingUser : Option Profile :=
    if env.checkErr.isSome then none
    else List.find? (fun p => p.email = email) env.db
  if existingUser.isSome then
    { result := { error := some "auth.email_already_exists", data := none },
      authSignUpCalled := false, insertedRow := none, deleteUserCalled := none,
      toasts := [⟨"auth.registration_failed", "auth.email_already_exists", "destructive"⟩] }
  else
    match env.authResult with
    | .err m =>
      { result := { error := some m, data := none },
        authSignUpCalled := true, insertedRow := none, deleteUserCalled := none,
        toasts := [⟨"auth.registration_failed", errMsgOrUnknown m, "destructive"⟩] }
    | .ok none =>
      { result := { error := none, data := some none },
        authSignUpCalled := true, insertedRow := none, deleteUserCalled := none,
        toasts := [⟨"auth.registration_success", "auth.account_created", "default"⟩] }
    | .ok (some uid) =>
      let row : Profile :=
        { id := uid, email := email, full_name := metadataFullName metadata,
          user_type := "user", created_at := env.now }
      match env.insertErr with
      | none =>
        { result := { error := none, data := some (some uid) },
          authSignUpCalled := true, insertedRow := some row, deleteUserCalled := none,
          toasts := [⟨"auth.registration_success", "auth.account_created", "default"⟩] }
      | some _ =>
        { result := { error := some "auth.profile_creation_failed", data := none },
          authSignUpCalled := true, insertedRow := some row,
          deleteUserCalled := some uid,
          toasts := [⟨"auth.registration_failed",
                      errMsgOrUnknown "auth.profile_creation_failed",
                      "destructive"⟩] }

/-- Trace of one `signIn` run: the `error` field of the returned record and
the toasts fired.  `outcome` is the error message of
`supabase.auth.signInWithPassword`, none on success. -/
structure SignInTrace where
  result : Option String
  toasts : List Toast
  deriving Repr, DecidableEq

/-- `signIn`, lines 108-121 of `AuthContext.tsx`: on backend error, fire
the `auth.login_failed` toast and return the error. -/
def signIn (outcome : Option String) : SignInTrace :=
  match outcome with
  | none => { result := none, toasts := [] }
  | some m => { result := some m, toasts := [⟨"auth.login_failed", m, "destructive"⟩] }

/-- `signOut`, lines 200-202 of `AuthContext.tsx`: it awaits
`supabase.auth.signOut()` and ignores the result entirely — no toast is
fired whatever the backend outcome (`outcome` is the backend error, if any). -/
def signOut (_outcome : Option String) : List Toast :=
  []

/-- Trace of one `fetchProfile` run: the resulting `profile` state, the
toasts fired, and whether the error branch logged to the console. -/
structure FetchProfileTrace where
  profile : Option Profile
  toasts : List Toast
  consoleError : Bool
  deriving Repr, DecidableEq

/-- `fetchProfile`, lines 69-83 of `AuthContext.tsx`: on success store the
row; on error only `console.error` — the profile state is left as it was
and no toast is fired. -/
def fetchProfile (prior : Option Profile) (outcome : Except String Profile) :
    FetchProfileTrace :=
  match outcome with
  | .ok row => { profile := some row, toasts := [], consoleError := false }
  | .error _ => { profile := prior, toasts := [], consoleError := true }

/-- `refreshProfile`, lines 85-88 of `AuthContext.tsx`: no-op without a
user, otherwise `fetchProfile user.id`. -/
def refreshProfile (user : Option UserInfo) (prior : Option Profile)
    (outcome : Except String Profile) : FetchProfileTrace :=
  match user with
  | none => { profile := prior, toasts := [], consoleError := false }
  | some _ => fetchProfile prior outcome

/-! ## Helper lemmas -/

/-- The guard of `handleAmountChange` accepts exactly the finite parse
results lying in the half-open interval `(0, amount]`. -/
theorem amountGuard_iff (od : OrderDetails) (value : JSNum) :
    (!(jsIsNaN value) && jsGtZero value && jsLeBound value od.amount) = true ↔
      ∃ v : ℚ, value = .fin v ∧ 0 < v ∧ v ≤ od.amount := by
  cases value <;> simp [jsIsNaN, jsGtZero, jsLeBound]

/-! ## Claims about the refund dialog -/

/-- Claim C2: submitting the refund dialog calls the external refund service
iff `0 < refundAmount ≤ orderDetails.amount` and the trimmed reason is
non-empty; when the amount is outside `(0, amount]`, the validation toast
fires and no service call is made. -/
theorem refund_submit_amount_gate (od : OrderDetails) (s : RefundState)
    (osp : Bool) (service : RefundRequest → RefundOutcome) :
    ((handleSubmit od s osp service).calls ≠ [] ↔
      (0 < s.refundAmount ∧ s.refundAmount ≤ od.amount ∧ jsTrim s.reason ≠ "")) ∧
    (¬ (0 < s.refundAmount ∧ s.refundAmount ≤ od.amount) →
      (handleSubmit od s osp service).toasts =
        [⟨"refund.invalidAmount", "refund.amountError", "destructive"⟩] ∧
      (handleSubmit od s osp service).calls = []) := by
  unfold handleSubmit
  by_cases h1 : s.refundAmount ≤ 0 ∨ s.refundAmount > od.amount
  · rw [if_pos h1]
    constructor
    · simp only [ne_eq, not_true_eq_false, false_iff, not_and]
      intro ha hb
      rcases h1 with h | h
      · exact absurd ha (not_lt.mpr h)
      · exact absurd hb (not_le.mpr h)
    · intro _; exact ⟨rfl, rfl⟩
  · push_neg at h1
    rw [if_neg (by push_neg; exact ⟨h1.1, h1.2⟩)]
    by_cases h2 : jsTrim s.reason = ""
    · rw [if_pos h2]
      refine ⟨?_, fun hn => absurd ⟨h1.1, h1.2⟩ hn⟩
      simp [h2]
    · rw [if_neg h2]
      refine ⟨?_, fun hn => absurd ⟨h1.1, h1.2⟩ hn⟩
      rcases hsvc : service ⟨od.orderId, s.refundAmount, s.reason⟩ with _ | m <;>
        simp [hsvc, h1.1, h1.2, h2]

/-- Claim C2 witness: with order total 100, amount 150 and a valid reason,
no call is made and the validation toast fires; with amount 50 the call is
made. -/
theorem refund_submit_amount_gate_witness :
    ((handleSubmit ⟨.num 9, 100, none⟩ ⟨150, "damaged", false⟩ true
        (fun _ => .success)).toasts =
      [⟨"refund.invalidAmount", "refund.amountError", "destructive"⟩] ∧
     (handleSubmit ⟨.num 9, 100, none⟩ ⟨150, "damaged", false⟩ true
        (fun _ => .success)).calls = []) ∧
    (handleSubmit ⟨.num 9, 100, none⟩ ⟨50, "damaged", false⟩ true
        (fun _ => .success)).calls ≠ [] :=
  ⟨(refund_submit_amount_gate ⟨.num 9, 100, none⟩ ⟨150, "damaged", false⟩ true
      (fun _ => .success)).2 (by decide),
   (refund_submit_amount_gate ⟨.num 9, 100, none⟩ ⟨50, "damaged", false⟩ true
      (fun _ => .success)).1.mpr (by decide)⟩

/-- Claim C3: on a valid submission the processing flag is raised around
the service call, the service is called with the entered amount and reason,
the final processing flag is cleared; on success the success toast fires,
`onSuccess` is invoked (when provided) and the dialog closes; on a throw the
failure toast shows the error's message (or the generic fallback) and the
dialog stays open. -/
theorem refund_submit_valid_run (od : OrderDetails) (s : RefundState)
    (osp : Bool) (outcome : RefundOutcome)
    (h1 : 0 < s.refundAmount) (h2 : s.refundAmount ≤ od.amount)
    (h3 : jsTrim s.reason ≠ "") :
    (handleSubmit od s osp (fun _ => outcome)).processingDuringCall = true ∧
    (handleSubmit od s osp (fun _ => outcome)).calls =
      [{ orderId := od.orderId, amount := s.refundAmount, reason := s.reason }] ∧
    ((handleSubmit od s osp (fun _ => outcome)).state).isProcessing = false ∧
    (outcome = .success →
      (handleSubmit od s osp (fun _ => outcome)).toasts =
        [⟨"refund.success", "refund.processed", "default"⟩] ∧
      (handleSubmit od s osp (fun _ => outcome)).onSuccessCalled = osp ∧
      (handleSubmit od s osp (fun _ => outcome)).onCloseCalled = true) ∧
    (∀ m : Option String, outcome = .failure m →
      (handleSubmit od s osp (fun _ => outcome)).toasts =
        [⟨"refund.failed", refundFailureDescription m, "destructive"⟩] ∧
      (handleSubmit od s osp (fun _ => outcome)).onCloseCalled = false) := by
  have hn : ¬ (s.refundAmount ≤ 0 ∨ s.refundAmount > od.amount) := by
    push_neg; exact ⟨h1, h2⟩
  unfold handleSubmit
  rw [if_neg hn, if_neg h3]
  cases outcome <;> simp

/-- Claim C3 witness: a valid submission against a failing service fires the
failure toast with the thrown message and leaves the dialog open, with the
processing flag cleared. -/
theorem refund_submit_valid_run_witness :
    (handleSubmit ⟨.num 7, 100, none⟩ ⟨(50 : ℚ), "late delivery", false⟩ true
        (fun _ => .failure (some "card expired"))).toasts =
      [⟨"refund.failed", "card expired", "destructive"⟩] ∧
    (handleSubmit ⟨.num 7, 100, none⟩ ⟨(50 : ℚ), "late delivery", false⟩ true
        (fun _ => .failure (some "card expired"))).onCloseCalled = false ∧
    ((handleSubmit ⟨.num 7, 100, none⟩ ⟨(50 : ℚ), "late delivery", false⟩ true
        (fun _ => .failure (some "card expired"))).state).isProcessing = false :=
  ⟨((refund_submit_valid_run ⟨.num 7, 100, none⟩ ⟨(50 : ℚ), "late delivery", false⟩
      true (.failure (some "card expired")) (by decide) (by decide)
      (by decide)).2.2.2.2 (some "card expired") rfl).1,
   ((refund_submit_valid_run ⟨.num 7, 100, none⟩ ⟨(50 : ℚ), "late delivery", false⟩
      true (.failure (some "card expired")) (by decide) (by decide)
      (by decide)).2.2.2.2 (some "card expired") rfl).2,
   (refund_submit_valid_run ⟨.num 7, 100, none⟩ ⟨(50 : ℚ), "late delivery", false⟩
      true (.failure (some "card expired")) (by decide) (by decide)
      (by decide)).2.2.1⟩

/-- Claim C8: a reason that is empty after trimming always blocks the
submission — no refund-service call is made, whatever the amount. -/
theorem refund_submit_empty_reason (od : OrderDetails) (s : RefundState)
    (osp : Bool) (service : RefundRequest → RefundOutcome)
    (h : jsTrim s.reason = "") :
    (handleSubmit od s osp service).calls = [] := by
  unfold handleSubmit
  by_cases h1 : s.refundAmount ≤ 0 ∨ s.refundAmount > od.amount
  · rw [if_pos h1]
  · rw [if_neg h1, if_pos h]

/-- Claim C8 witness: a whitespace-only reason blocks the submission even
with a perfectly valid amount. -/
theorem refund_submit_empty_reason_witness :
    jsTrim "   " = "" ∧
    (handleSubmit ⟨.num 1, 100, none⟩ ⟨(50 : ℚ), "   ", false⟩ true
        (fun _ => .success)).calls = [] :=
  ⟨by decide,
   refund_submit_empty_reason ⟨.num 1, 100, none⟩ ⟨(50 : ℚ), "   ", false⟩ true
     (fun _ => .success) (by decide)⟩

/-- Claim C10: `handleAmountChange` stores the parsed value exactly when it
is finite and in `(0, amount]`, and otherwise leaves the state untouched;
consequently `0 < refundAmount ≤ amount` holds initially (given a positive
order total) and is preserved by every amount-change event. -/
theorem handleAmountChange_invariant (od : OrderDetails) (s : RefundState)
    (value : JSNum) :
    (∀ v : ℚ, value = .fin v → 0 < v → v ≤ od.amount →
      (handleAmountChange od s value).refundAmount = v) ∧
    ((¬ ∃ v : ℚ, value = .fin v ∧ 0 < v ∧ v ≤ od.amount) →
      handleAmountChange od s value = s) ∧
    (0 < od.amount →
      0 < (initialRefundState od).refundAmount ∧
        (initialRefundState od).refundAmount ≤ od.amount) ∧
    (0 < s.refundAmount → s.refundAmount ≤ od.amount →
      0 < (handleAmountChange od s value).refundAmount ∧
        (handleAmountChange od s value).refundAmount ≤ od.amount) := by
  refine ⟨?_, ?_, fun h0 => ⟨h0, le_refl od.amount⟩, ?_⟩
  · intro v hv hv0 hvle
    subst hv
    unfold handleAmountChange
    rw [if_pos ((amountGuard_iff od (.fin v)).mpr ⟨v, rfl, hv0, hvle⟩)]
    rfl
  · intro hn
    unfold handleAmountChange
    rw [if_neg (fun hg => hn ((amountGuard_iff od value).mp hg))]
  · intro ha hb
    by_cases hg : (!(jsIsNaN value) && jsGtZero value &&
        jsLeBound value od.amount) = true
    · obtain ⟨v, hv, hv0, hvle⟩ := (amountGuard_iff od value).mp hg
      subst hv
      unfold handleAmountChange
      rw [if_pos hg]
      exact ⟨hv0, hvle⟩
    · unfold handleAmountChange
      rw [if_neg hg]
      exact ⟨ha, hb⟩

/-- Claim C10 witness: with order total 100, the inputs `NaN` and `150`
leave the amount unchanged while `50` is stored, and the stored value keeps
the invariant. -/
theorem handleAmountChange_invariant_witness :
    handleAmountChange ⟨.num 3, 100, none⟩ ⟨(100 : ℚ), "", false⟩ .nan =
      ⟨(100 : ℚ), "", false⟩ ∧
    handleAmountChange ⟨.num 3, 100, none⟩ ⟨(100 : ℚ), "", false⟩ (.fin 150) =
      ⟨(100 : ℚ), "", false⟩ ∧
    (handleAmountChange ⟨.num 3, 100, none⟩ ⟨(100 : ℚ), "", false⟩
        (.fin 50)).refundAmount = 50 ∧
    0 < (handleAmountChange ⟨.num 3, 100, none⟩ ⟨(100 : ℚ), "", false⟩
        (.fin 50)).refundAmount :=
  ⟨(handleAmountChange_invariant ⟨.num 3, 100, none⟩ ⟨(100 : ℚ), "", false⟩
      .nan).2.1 (by rintro ⟨v, hv, -, -⟩; exact JSNum.noConfusion hv),
   (handleAmountChange_invariant ⟨.num 3, 100, none⟩ ⟨(100 : ℚ), "", false⟩
      (.fin 150)).2.1
     (by rintro ⟨v, hv, -, hle⟩; injection hv with h; subst h
         exact absurd hle (by decide)),
   (handleAmountChange_invariant ⟨.num 3, 100, none⟩ ⟨(100 : ℚ), "", false⟩
      (.fin 50)).1 50 rfl (by decide) (by decide),
   ((handleAmountChange_invariant ⟨.num 3, 100, none⟩ ⟨(100 : ℚ), "", false⟩
      (.fin 50)).2.2.2 (by decide) (by decide)).1⟩

/-- Claim C7: scenario with orderId 42 and total 100.  Entering 150 leaves
the stored amount at 100 (`handleAmountChange` rejects the out-of-range
value), so submitting from that state fires a validation toast — the
missing-reason one, the reason still being empty — and makes no service
call, whatever the service would answer.  Entering 50 and reason
"damaged item" calls the service with exactly that request; on success the
success toast fires and the dialog closes. -/
theorem refund_dialog_scenario :
    (∀ (osp : Bool) (service : RefundRequest → RefundOutcome),
      (handleSubmit ⟨.num 42, 100, none⟩
        (handleAmountChange ⟨.num 42, 100, none⟩
          (initialRefundState ⟨.num 42, 100, none⟩) (.fin 150)) osp
        service).calls = [] ∧
      (handleSubmit ⟨.num 42, 100, none⟩
        (handleAmountChange ⟨.num 42, 100, none⟩
          (initialRefundState ⟨.num 42, 100, none⟩) (.fin 150)) osp
        service).toasts =
        [⟨"refund.missingReason", "refund.reasonRequired", "destructive"⟩]) ∧
    ((handleSubmit ⟨.num 42, 100, none⟩
        (handleReasonChange
          (handleAmountChange ⟨.num 42, 100, none⟩
            (initialRefundState ⟨.num 42, 100, none⟩) (.fin 50)) "damaged item")
        true (fun _ => .success)).calls =
      [⟨.num 42, 50, "damaged item"⟩] ∧
     (handleSubmit ⟨.num 42, 100, none⟩
        (handleReasonChange
          (handleAmountChange ⟨.num 42, 100, none⟩
            (initialRefundState ⟨.num 42, 100, none⟩) (.fin 50)) "damaged item")
        true (fun _ => .success)).onCloseCalled = true ∧
     (handleSubmit ⟨.num 42, 100, none⟩
        (handleReasonChange
          (handleAmountChange ⟨.num 42, 100, none⟩
            (initialRefundState ⟨.num 42, 100, none⟩) (.fin 50)) "damaged item")
        true (fun _ => .success)).toasts =
        [⟨"refund.success", "refund.processed", "default"⟩]) :=
  ⟨fun _ _ => ⟨rfl, rfl⟩, by decide⟩

/-! ## Claims about the country selector -/

/-- Claim C6 counterexample: on the whitespace-only query `" "` the
component returns the full list (the trimmed query is blank), while the
result set the claim describes — the case-insensitive substring matches —
keeps only the entries with a space in some field. -/
theorem countryFilter_counterexample :
    filteredCountries modelCountries " " ≠ specCountryMatches modelCountries " " := by
  decide

/-- Claim C6 amended: a query that is blank after trimming returns the full
list; any other query yields exactly the entries whose name, Arabic name or
code contains the query case-insensitively; and the not-found state is
rendered exactly when the filtered result is empty. -/
theorem countryFilter_amended (countries : List Country) (q : String) :
    (jsTrim q = "" → filteredCountries countries q = countries) ∧
    (jsTrim q ≠ "" →
      filteredCountries countries q = specCountryMatches countries q) ∧
    (renderCountryList countries q = .noneFound ↔
      filteredCountries countries q = []) := by
  refine ⟨fun h => by rw [filteredCountries, if_pos h],
    fun h => by rw [filteredCountries, if_neg h]; rfl, ?_⟩
  constructor
  · intro he
    by_cases h : 0 < (filteredCountries countries q).length
    · rw [renderCountryList, if_pos h] at he
      exact CountryListView.noConfusion he
    · exact List.length_eq_zero.mp (Nat.eq_zero_of_not_pos h)
  · intro he
    rw [renderCountryList, if_neg (by rw [he]; exact Nat.lt_irrefl 0)]

/-- Claim C6 amended witness: on the modelled list, the query `"eg"` yields
exactly the substring matches, the empty query yields the full list, and a
matchless query renders the not-found state. -/
theorem countryFilter_amended_witness :
    filteredCountries modelCountries "eg" = specCountryMatches modelCountries "eg" ∧
    filteredCountries modelCountries "" = modelCountries ∧
    renderCountryList modelCountries "zz" = .noneFound :=
  ⟨(countryFilter_amended modelCountries "eg").2.1 (by decide),
   (countryFilter_amended modelCountries "").1 (by decide),
   (countryFilter_amended modelCountries "zz").2.2.mpr (by decide)⟩

/-! ## Claims about the authentication context -/

/-- Claim C4: processing a `"SIGNED_OUT"` auth event with a null session
clears the admin flag and the profile, whatever the prior state. -/
theorem signedOut_clears_admin_and_profile (st : AuthState) :
    (onAuthStateChange st "SIGNED_OUT" none).state.isAdmin = false ∧
    (onAuthStateChange st "SIGNED_OUT" none).state.profile = none :=
  ⟨rfl, rfl⟩

/-- Claim C1 counterexample: with a profile row for the email present but
the pre-check query itself erroring, `signUp` only logs the check error and
proceeds: it creates the auth identity and inserts a profile row despite
the pre-existing email, returning success. -/
theorem signUp_precheck_counterexample :
    (∃ p ∈ (⟨[⟨"u1", "taken@example.com", "", "user", "t0"⟩],
        some "network error", .ok (some "u2"), none, false, "t1"⟩ : SignUpEnv).db,
      p.email = "taken@example.com") ∧
    (signUp ⟨[⟨"u1", "taken@example.com", "", "user", "t0"⟩],
        some "network error", .ok (some "u2"), none, false, "t1"⟩
      "taken@example.com" "pw" none).authSignUpCalled = true ∧
    (signUp ⟨[⟨"u1", "taken@example.com", "", "user", "t0"⟩],
        some "network error", .ok (some "u2"), none, false, "t1"⟩
      "taken@example.com" "pw" none).insertedRow ≠ none ∧
    (signUp ⟨[⟨"u1", "taken@example.com", "", "user", "t0"⟩],
        some "network error", .ok (some "u2"), none, false, "t1"⟩
      "taken@example.com" "pw" none).result.error = none := by
  decide

/-- Claim C1 amended: provided the existence pre-check query itself
succeeds, a pre-existing profile row with the email makes `signUp` return
the `auth.email_already_exists` failure with no auth-identity creation and
no profile-row insert. -/
theorem signUp_precheck_amended (env : SignUpEnv) (email pw : String)
    (md : Option Metadata)
    (hq : env.checkErr = none)
    (hex : ∃ p ∈ env.db, p.email = email) :
    (signUp env email pw md).result.error = some "auth.email_already_exists" ∧
    (signUp env email pw md).result.data = none ∧
    (signUp env email pw md).authSignUpCalled = false ∧
    (signUp env email pw md).insertedRow = none := by
  have hfind : (List.find? (fun p => p.email = email) env.db).isSome = true := by
    rw [List.find?_isSome]
    obtain ⟨p, hp, he⟩ := hex
    exact ⟨p, hp, by simpa using he⟩
  refine ⟨?_, ?_, ?_, ?_⟩ <;> simp [signUp, hq, hfind]

/-- Claim C1 amended witness: a concrete database holding the email, with a
succeeding pre-check, short-circuits the sign-up. -/
theorem signUp_precheck_amended_witness :
    (signUp ⟨[⟨"u1", "taken@example.com", "", "user", "t0"⟩], none,
        .ok (some "u2"), none, false, "t1"⟩
      "taken@example.com" "pw" none).result.error =
      some "auth.email_already_exists" ∧
    (signUp ⟨[⟨"u1", "taken@example.com", "", "user", "t0"⟩], none,
        .ok (some "u2"), none, false, "t1"⟩
      "taken@example.com" "pw" none).authSignUpCalled = false :=
  ⟨(signUp_precheck_amended ⟨[⟨"u1", "taken@example.com", "", "user", "t0"⟩],
      none, .ok (some "u2"), none, false, "t1"⟩ "taken@example.com" "pw" none
      rfl ⟨⟨"u1", "taken@example.com", "", "user", "t0"⟩, by decide, rfl⟩).1,
   (signUp_precheck_amended ⟨[⟨"u1", "taken@example.com", "", "user", "t0"⟩],
      none, .ok (some "u2"), none, false, "t1"⟩ "taken@example.com" "pw" none
      rfl ⟨⟨"u1", "taken@example.com", "", "user", "t0"⟩, by decide, rfl⟩).2.2.1⟩

/-- Claim C5: when the run reaches auth-identity creation and it succeeds
with a user id but the profile insert fails, the compensating
`admin.deleteUser` is attempted on that id — its own failure changing
nothing, as the last conjunct states — and the caller gets the
`auth.profile_creation_failed` error with null data. -/
theorem signUp_compensating_delete (env : SignUpEnv) (email pw : String)
    (md : Option Metadata) (uid e : String)
    (hauth : env.authResult = .ok (some uid))
    (hins : env.insertErr = some e)
    (hcalled : (signUp env email pw md).authSignUpCalled = true) :
    (signUp env email pw md).deleteUserCalled = some uid ∧
    (signUp env email pw md).result.error = some "auth.profile_creation_failed" ∧
    (signUp env email pw md).result.data = none ∧
    (∀ b : Bool,
      signUp { env with deleteFails := b } email pw md = signUp env email pw md) := by
  by_cases hex : (if env.checkErr.isSome = true then (none : Option Profile)
      else List.find? (fun p => p.email = email) env.db).isSome = true
  · exfalso
    simp [signUp, hex] at hcalled
  · refine ⟨?_, ?_, ?_, fun b => rfl⟩ <;> simp [signUp, hex, hauth, hins]

/-- Claim C5 witness: a concrete run in which the insert fails and the
compensating delete itself throws still deletes the new identity and
surfaces the profile-creation failure. -/
theorem signUp_compensating_delete_witness :
    (signUp ⟨[], none, .ok (some "u9"), some "insert failed", true, "t2"⟩
      "new@example.com" "pw" none).deleteUserCalled = some "u9" ∧
    (signUp ⟨[], none, .ok (some "u9"), some "insert failed", true, "t2"⟩
      "new@example.com" "pw" none).result.error =
      some "auth.profile_creation_failed" :=
  ⟨(signUp_compensating_delete
      ⟨[], none, .ok (some "u9"), some "insert failed", true, "t2"⟩
      "new@example.com" "pw" none "u9" "insert failed" rfl rfl (by decide)).1,
   (signUp_compensating_delete
      ⟨[], none, .ok (some "u9"), some "insert failed", true, "t2"⟩
      "new@example.com" "pw" none "u9" "insert failed" rfl rfl (by decide)).2.1⟩

/-- Claim C9 counterexample: a failing profile fetch inside
`refreshProfile` is only logged to the console, and `signOut` ignores the
backend outcome entirely — neither failure produces a user-facing
notification. -/
theorem auth_failure_notification_counterexample :
    (refreshProfile (some ⟨"u1"⟩) none (.error "db down")).toasts = [] ∧
    (refreshProfile (some ⟨"u1"⟩) none (.error "db down")).consoleError = true ∧
    signOut (some "network error") = [] := by
  decide

/-- Claim C9 amended: `signIn` and `signUp` convert backend failures into
destructive toasts, but `signOut` fires no toast whatever the backend
outcome, and a failing `refreshProfile` fetch is only logged to the
console, with no toast. -/
theorem auth_failure_reporting (m : String) (env : SignUpEnv)
    (email pw : String) (md : Option Metadata)
    (hm : env.authResult = .err m)
    (hcalled : (signUp env email pw md).authSignUpCalled = true) :
    (signIn (some m)).toasts = [⟨"auth.login_failed", m, "destructive"⟩] ∧
    (signUp env email pw md).toasts =
      [⟨"auth.registration_failed", errMsgOrUnknown m, "destructive"⟩] ∧
    (∀ o : Option String, signOut o = []) ∧
    (∀ (prior : Option Profile) (e : String) (u : UserInfo),
      (refreshProfile (some u) prior (.error e)).toasts = [] ∧
      (refreshProfile (some u) prior (.error e)).consoleError = true) := by
  refine ⟨rfl, ?_, fun o => rfl, fun prior e u => ⟨rfl, rfl⟩⟩
  by_cases hex : (if env.checkErr.isSome = true then (none : Option Profile)
      else List.find? (fun p => p.email = email) env.db).isSome = true
  · exfalso
    simp [signUp, hex] at hcalled
  · simp [signUp, hex, hm]

/-- Claim C9 amended witness: concrete failing runs of each operation. -/
theorem auth_failure_reporting_witness :
    (signIn (some "wrong password")).toasts =
      [⟨"auth.login_failed", "wrong password", "destructive"⟩] ∧
    (signUp ⟨[], none, .err "wrong password", none, false, "t3"⟩
      "x@example.com" "pw" none).toasts =
      [⟨"auth.registration_failed", errMsgOrUnknown "wrong password",
        "destructive"⟩] ∧
    signOut (some "boom") = [] ∧
    (refreshProfile (some ⟨"u1"⟩) none (.error "db down")).toasts = [] :=
  ⟨(auth_failure_reporting "wrong password"
      ⟨[], none, .err "wrong password", none, false, "t3"⟩
      "x@example.com" "pw" none rfl (by decide)).1,
   (auth_failure_reporting "wrong password"
      ⟨[], none, .err "wrong password", none, false, "t3"⟩
      "x@example.com" "pw" none rfl (by decide)).2.1,
   (auth_failure_reporting "wrong password"
      ⟨[], none, .err "wrong password", none, false, "t3"⟩
      "x@example.com" "pw" none rfl (by decide)).2.2.1 (some "boom"),
   ((auth_failure_reporting "wrong password"
      ⟨[], none, .err "wrong password", none, false, "t3"⟩
      "x@example.com" "pw" none rfl (by decide)).2.2.2 none "db down" ⟨"u1"⟩).1⟩

end Yummy
